import Mathlib

/- Shallow embedding of src/valutatrade_hub/core/models.py.

   Python Decimal values and float values are both modelled by Rat
   (exact arithmetic: a numeric literal is abstracted to the rational it
   denotes).  Where the DISTINCTION between Decimal and float matters --
   Python raises TypeError when a Decimal and a float meet in an
   arithmetic operation -- the tagged type PyNum records which of the
   two a value is.

   Python exceptions are modelled by PyErr.  A mutating operation on a
   Portfolio returns (new state, optional error): in the source an
   exception can escape after part of the state has been mutated, so the
   state at raise time must be kept.  Wallet methods raise strictly
   before any assignment to the backing field, so they are modelled the
   same way, always returning the unchanged wallet together with the
   error. -/

namespace ValutatradeHub

/-- Python exception classes raised by the core models.  invalidOperation
    stands for decimal.InvalidOperation, a subclass of ArithmeticError
    and therefore of neither ValueError nor TypeError. -/
inductive PyErr where
  | valueError
  | typeError
  | keyError
  | attributeError
  | invalidOperation
  deriving DecidableEq, Repr

/-- Python datetime.datetime, identified with its ISO-8601 rendering. -/
structure PyDateTime where
  iso : String
  deriving DecidableEq, Repr

def PyDateTime.isoformat (d : PyDateTime) : String := d.iso

/-- User entity (models.py lines 10-89). -/
structure User where
  user_id : Int
  username : String
  hashed_password : String
  salt : String
  registration_date : PyDateTime
  deriving DecidableEq, Repr

/-- Result shape of User.get_user_info: identifier, display name and the
    ISO-8601 registration timestamp; no credential fields. -/
structure UserInfo where
  user_id : Int
  username : String
  registration_date : String
  deriving DecidableEq, Repr

/-- Serialized User record: the shape produced by User.to_dict. -/
structure UserRecord where
  user_id : Int
  username : String
  hashed_password : String
  salt : String
  registration_date : String
  deriving DecidableEq, Repr

/-- Model of User._hash_password: hashlib sha256 over the UTF-8 bytes of
    password + salt, hex encoded.  The digest is an external library
    function, abstracted as a parameter hashFn; UTF-8 encoding is
    injective and the encoding of a concatenation is the concatenation
    of the encodings, so the byte-level operation is modelled on strings
    directly. -/
def User.hash_password (u : User) (hashFn : String → String) (password : String) : String :=
  hashFn (password ++ u.salt)

def User.get_user_info (u : User) : UserInfo :=
  ⟨u.user_id, u.username, u.registration_date.isoformat⟩

/-- User.change_password: rejects passwords shorter than 4 characters,
    otherwise stores the recomputed salted hash. -/
def User.change_password (u : User) (hashFn : String → String) (new_password : String) :
    Except PyErr User :=
  if new_password.length < 4 then .error .valueError
  else .ok { u with hashed_password := u.hash_password hashFn new_password }

/-- User.verify_password: recomputes the salted hash of the candidate
    and compares it to the stored hash; pure and total. -/
def User.verify_password (u : User) (hashFn : String → String) (password : String) : Bool :=
  u.hash_password hashFn password == u.hashed_password

def User.to_dict (u : User) : UserRecord :=
  ⟨u.user_id, u.username, u.hashed_password, u.salt, u.registration_date.isoformat⟩

/-- User.from_dict.  Line 8 of models.py, from datetime import datetime,
    rebinds the name datetime to the class, so the expression
    datetime.datetime.fromisoformat at line 78 looks up a datetime
    attribute on the class and raises AttributeError before cls is ever
    called: every call fails, whatever the record holds. -/
def User.from_dict (_ : UserRecord) : Except PyErr User :=
  .error .attributeError

/-- Wallet entity (models.py lines 107-171).  The constructor stores
    Decimal(str(balance)) into the backing field directly, with no
    validation, so Wallet.mk itself is the model of __init__. -/
structure Wallet where
  currency_code : String
  balance : Rat
  deriving DecidableEq, Repr

/-- Argument passed to the balance setter: either a value whose str()
    rendering parses as a number, or one that does not. -/
inductive SetterVal where
  | numeric (q : Rat)
  | nonNumeric
  deriving DecidableEq, Repr

/-- The balance property setter: converts the value, rejects negatives,
    and only then assigns the backing field.  On a non-convertible value
    Decimal(str(value)) raises decimal.InvalidOperation, which the
    except (ValueError, TypeError) clause does not catch -- the
    re-raise as ValueError there is dead code -- so InvalidOperation
    escapes to the caller before any assignment. -/
def Wallet.set_balance (w : Wallet) (value : SetterVal) : Wallet × Option PyErr :=
  match value with
  | .nonNumeric => (w, some .invalidOperation)
  | .numeric q =>
    if q < 0 then (w, some .valueError)
    else ({ w with balance := q }, none)

/-- Wallet.deposit: positive amounts only; the addition is assigned
    through the balance setter. -/
def Wallet.deposit (w : Wallet) (amount : Rat) : Wallet × Option PyErr :=
  if amount ≤ 0 then (w, some .valueError)
  else w.set_balance (.numeric (w.balance + amount))

/-- Wallet.withdraw: positive amounts not exceeding the balance; the
    subtraction is assigned through the balance setter. -/
def Wallet.withdraw (w : Wallet) (amount : Rat) : Wallet × Option PyErr :=
  if amount ≤ 0 then (w, some .valueError)
  else if w.balance < amount then (w, some .valueError)
  else w.set_balance (.numeric (w.balance - amount))

/-- Serialized Wallet record; the balance field is written through
    float(), modelled exactly (the float rounding of the serialized
    balance is below this abstraction). -/
structure WalletRecord where
  currency_code : String
  balance : Rat
  deriving DecidableEq, Repr

def Wallet.to_dict (w : Wallet) : WalletRecord :=
  ⟨w.currency_code, w.balance⟩

def Wallet.from_dict (d : WalletRecord) : Wallet :=
  ⟨d.currency_code, d.balance⟩

/-- A Python number tagged with its runtime type: Decimal values and
    float values do not mix in arithmetic. -/
inductive PyNum where
  | pfloat (q : Rat)
  | pdec (q : Rat)
  deriving DecidableEq, Repr

/-- Python multiplication restricted to the operand types occurring in
    models.py: float*float and Decimal*Decimal succeed, while a Decimal
    and a float together raise TypeError. -/
def PyNum.mul : PyNum → PyNum → Except PyErr PyNum
  | .pfloat a, .pfloat b => .ok (.pfloat (a * b))
  | .pdec a, .pdec b => .ok (.pdec (a * b))
  | _, _ => .error .typeError

/-- Python division under the same typing rule; every divisor reached in
    the source is a nonzero rate from the table. -/
def PyNum.div : PyNum → PyNum → Except PyErr PyNum
  | .pfloat a, .pfloat b => .ok (.pfloat (a / b))
  | .pdec a, .pdec b => .ok (.pdec (a / b))
  | _, _ => .error .typeError

/-- Python addition under the same typing rule. -/
def PyNum.add : PyNum → PyNum → Except PyErr PyNum
  | .pfloat a, .pfloat b => .ok (.pfloat (a + b))
  | .pdec a, .pdec b => .ok (.pdec (a + b))
  | _, _ => .error .typeError

/-- The static exchange-rate table; every value in the source is a float
    literal. -/
def EXCHANGE_RATES : List (String × Rat) :=
  [("USD", 1), ("EUR", 11 / 10), ("BTC", 40000), ("RUB", 12 / 1000)]

/-- Python dict subscript: raises KeyError on a missing key. -/
def dict_item (l : List (String × Rat)) (c : String) : Except PyErr Rat :=
  match l.lookup c with
  | some r => .ok r
  | none => .error .keyError

/-- Portfolio entity (models.py lines 187 onward); the wallet mapping is
    a dict keyed by currency code, kept in insertion order. -/
structure Portfolio where
  user_id : Int
  wallets : List (String × Wallet)
  deriving DecidableEq, Repr

def Portfolio.get_wallet (p : Portfolio) (currency_code : String) : Option Wallet :=
  p.wallets.lookup currency_code

/-- Replacing the wallet object bound to a key: the Python code mutates
    the stored object in place, which this models by rebinding the key
    to the updated wallet. -/
def Portfolio.set_wallet (p : Portfolio) (currency_code : String) (w : Wallet) : Portfolio :=
  { p with wallets :=
      p.wallets.map fun kv => if kv.1 = currency_code then (currency_code, w) else kv }

/-- Portfolio.add_currency: rejects a duplicate wallet, rejects a code
    missing from the rate table, otherwise appends a zero-balance
    wallet. -/
def Portfolio.add_currency (p : Portfolio) (currency_code : String) : Portfolio × Option PyErr :=
  if (p.wallets.lookup currency_code).isSome then (p, some .valueError)
  else if (EXCHANGE_RATES.lookup currency_code).isNone then (p, some .valueError)
  else ({ p with wallets := p.wallets ++ [(currency_code, ⟨currency_code, 0⟩)] }, none)

/-- Loop body of get_total_value: per wallet, look up both rates with
    dict.get, skip the wallet if either is missing, otherwise accumulate
    (balance * rate) / base_rate into the float total.  The balance is a
    Decimal and both rates are floats. -/
def get_total_value_go (base_currency : String) :
    List (String × Wallet) → PyNum → Except PyErr PyNum
  | [], total_value => .ok total_value
  | (_, w) :: rest, total_value =>
    match EXCHANGE_RATES.lookup w.currency_code, EXCHANGE_RATES.lookup base_currency with
    | some currency_rate, some base_rate =>
      match (PyNum.pdec w.balance).mul (.pfloat currency_rate) with
      | .error e => .error e
      | .ok v1 =>
        match v1.div (.pfloat base_rate) with
        | .error e => .error e
        | .ok value_in_base =>
          match total_value.add value_in_base with
          | .error e => .error e
          | .ok t => get_total_value_go base_currency rest t
    | _, _ => get_total_value_go base_currency rest total_value

/-- Portfolio.get_total_value: rejects an unknown base currency, then
    folds the valuation loop over the wallets starting from float 0. -/
def Portfolio.get_total_value (p : Portfolio) (base_currency : String) : Except PyErr PyNum :=
  if (EXCHANGE_RATES.lookup base_currency).isNone then .error .valueError
  else get_total_value_go base_currency p.wallets (.pfloat 0)

/-- Portfolio.buy_currency: validates the amount and both wallets,
    withdraws from the source wallet, reads both rates with dict
    subscript, converts with float arithmetic and deposits into the
    destination wallet.  When the two codes coincide the destination
    object aliases the already-debited source wallet. -/
def Portfolio.buy_currency (p : Portfolio) (amount : Rat)
    (from_currency to_currency : String) : Portfolio × Option PyErr :=
  if amount ≤ 0 then (p, some .valueError) else
  match p.get_wallet from_currency, p.get_wallet to_currency with
  | some from_wallet, some to_wallet =>
    match from_wallet.withdraw amount with
    | (_, some e) => (p, some e)
    | (fw1, none) =>
      let p1 := p.set_wallet from_currency fw1
      match dict_item EXCHANGE_RATES from_currency with
      | .error e => (p1, some e)
      | .ok from_rate =>
        match dict_item EXCHANGE_RATES to_currency with
        | .error e => (p1, some e)
        | .ok to_rate =>
          let converted_amount := amount * from_rate / to_rate
          let target := if to_currency = from_currency then fw1 else to_wallet
          match target.deposit converted_amount with
          | (_, some e) => (p1, some e)
          | (tw1, none) => (p1.set_wallet to_currency tw1, none)
  | _, _ => (p, some .valueError)

/-- Portfolio.sell_currency: validates the amount, both wallets and
    sufficiency of the source balance, withdraws from the source wallet
    and reads the from-currency rate.  The source function ends there:
    no conversion and no deposit into the destination wallet follow the
    withdrawal. -/
def Portfolio.sell_currency (p : Portfolio) (amount : Rat)
    (from_currency to_currency : String) : Portfolio × Option PyErr :=
  if amount ≤ 0 then (p, some .valueError) else
  match p.get_wallet from_currency, p.get_wallet to_currency with
  | some from_wallet, some _ =>
    if from_wallet.balance < amount then (p, some .valueError) else
    match from_wallet.withdraw amount with
    | (_, some e) => (p, some e)
    | (fw1, none) =>
      let p1 := p.set_wallet from_currency fw1
      match dict_item EXCHANGE_RATES from_currency with
      | .error e => (p1, some e)
      | .ok _ => (p1, none)
  | _, _ => (p, some .valueError)

/-- Number of wallet entries stored under a currency code (the dict
    invariant keeps it at most 1). -/
def countCurrency (p : Portfolio) (c : String) : Nat :=
  p.wallets.countP fun kv => kv.1 == c

/-- One call in a deposit/withdraw call sequence. -/
inductive WalletOp where
  | dep (amount : Rat)
  | wd (amount : Rat)
  deriving DecidableEq, Repr

def Wallet.apply_op (w : Wallet) : WalletOp → Wallet × Option PyErr
  | .dep a => w.deposit a
  | .wd a => w.withdraw a

/-- Runs a sequence of wallet calls, returning the final wallet only if
    every call in the sequence succeeds. -/
def runOps : Wallet → List WalletOp → Option Wallet
  | w, [] => some w
  | w, op :: rest =>
    match w.apply_op op with
    | (_, some _) => none
    | (w1, none) => runOps w1 rest

/- Helper lemmas about the embedding. -/

lemma set_balance_numeric_ok {w w1 : Wallet} {q : Rat}
    (h : w.set_balance (.numeric q) = (w1, none)) :
    w1 = { w with balance := q } ∧ 0 ≤ q := by
  by_cases hq : q < 0
  · simp [Wallet.set_balance, hq] at h
  · simp [Wallet.set_balance, hq] at h
    exact ⟨h.symm, not_lt.mp hq⟩

lemma deposit_ok_nonneg {w w1 : Wallet} {a : Rat}
    (h : w.deposit a = (w1, none)) : 0 ≤ w1.balance := by
  unfold Wallet.deposit at h
  split at h
  · exact absurd h (by simp)
  · obtain ⟨h1, h2⟩ := set_balance_numeric_ok h
    rw [h1]
    exact h2

lemma withdraw_ok_nonneg {w w1 : Wallet} {a : Rat}
    (h : w.withdraw a = (w1, none)) : 0 ≤ w1.balance := by
  unfold Wallet.withdraw at h
  split at h
  · exact absurd h (by simp)
  · split at h
    · exact absurd h (by simp)
    · obtain ⟨h1, h2⟩ := set_balance_numeric_ok h
      rw [h1]
      exact h2

lemma apply_op_nonneg {w w1 : Wallet} {op : WalletOp}
    (h : w.apply_op op = (w1, none)) : 0 ≤ w1.balance := by
  cases op with
  | dep a => exact deposit_ok_nonneg h
  | wd a => exact withdraw_ok_nonneg h

lemma lookup_map_set_self (l : List (String × Wallet)) (c : String) (w : Wallet) :
    (l.map fun kv => if kv.1 = c then (c, w) else kv).lookup c =
      (l.lookup c).map fun _ => w := by
  induction l with
  | nil => rfl
  | cons kv rest ih =>
    obtain ⟨k, v⟩ := kv
    by_cases h : k = c
    · subst h
      simp [List.lookup_cons]
    · simp only [List.map_cons, if_neg h, List.lookup_cons,
        beq_false_of_ne (Ne.symm h), ih]

lemma lookup_map_set_ne (l : List (String × Wallet)) {c c1 : String} (h : c1 ≠ c)
    (w : Wallet) :
    (l.map fun kv => if kv.1 = c then (c, w) else kv).lookup c1 = l.lookup c1 := by
  induction l with
  | nil => rfl
  | cons kv rest ih =>
    obtain ⟨k, v⟩ := kv
    by_cases hk : k = c
    · subst hk
      simp [List.lookup_cons, beq_false_of_ne h, ih]
    · simp only [List.map_cons, if_neg hk, List.lookup_cons, ih]

lemma get_wallet_set_self (p : Portfolio) (c : String) (w : Wallet) :
    (p.set_wallet c w).get_wallet c = (p.get_wallet c).map fun _ => w :=
  lookup_map_set_self p.wallets c w

lemma get_wallet_set_ne (p : Portfolio) {c c1 : String} (h : c1 ≠ c) (w : Wallet) :
    (p.set_wallet c w).get_wallet c1 = p.get_wallet c1 :=
  lookup_map_set_ne p.wallets h w

lemma lookup_append_of_none {l : List (String × Wallet)} {c : String}
    (h : l.lookup c = none) (w : Wallet) :
    (l ++ [(c, w)]).lookup c = some w := by
  induction l with
  | nil => simp [List.lookup_cons]
  | cons kv rest ih =>
    obtain ⟨k, v⟩ := kv
    rw [List.lookup_cons] at h
    rw [List.cons_append, List.lookup_cons]
    cases hck : c == k with
    | true => rw [hck] at h; exact absurd h (by simp)
    | false => rw [hck] at h; exact ih h

lemma countP_eq_zero_of_lookup_none {l : List (String × Wallet)} {c : String}
    (h : l.lookup c = none) :
    l.countP (fun kv => kv.1 == c) = 0 := by
  induction l with
  | nil => rfl
  | cons kv rest ih =>
    obtain ⟨k, v⟩ := kv
    rw [List.lookup_cons] at h
    cases hck : c == k with
    | true => rw [hck] at h; exact absurd h (by simp)
    | false =>
      rw [hck] at h
      have hkc : (k == c) = false := by
        simp only [beq_eq_false_iff_ne] at hck ⊢
        exact Ne.symm hck
      simp [List.countP_cons, hkc, ih h]

lemma rates_pos {c : String} {r : Rat} (h : EXCHANGE_RATES.lookup c = some r) : 0 < r := by
  simp only [EXCHANGE_RATES, List.lookup_cons] at h
  cases h1 : c == "USD" <;> rw [h1] at h
  · cases h2 : c == "EUR" <;> rw [h2] at h
    · cases h3 : c == "BTC" <;> rw [h3] at h
      · cases h4 : c == "RUB" <;> rw [h4] at h
        · exact absurd h (by simp)
        · cases h; norm_num
      · cases h; norm_num
    · cases h; norm_num
  · cases h; norm_num

/-- C1: the claim says get_total_value returns the sum of
    balance * rate / base_rate over the owned wallets; on the code, any
    wallet whose currency is in the rate table makes the loop multiply a
    Decimal balance by a float rate, which raises TypeError, so the
    valuation crashes on every such portfolio.  Only the empty-portfolio
    and unknown-base-currency clauses behave as claimed. -/
theorem get_total_value_type_error :
    (Portfolio.mk 1 [("USD", ⟨"USD", 100⟩)]).get_total_value "USD" = .error .typeError ∧
    (Portfolio.mk 1 []).get_total_value "USD" = .ok (.pfloat 0) ∧
    (Portfolio.mk 1 []).get_total_value "XYZ" = .error .valueError := by
  exact ⟨rfl, rfl, rfl⟩

/-- C6: the claim says from_dict(to_dict(u)) succeeds and reproduces u;
    on the code User.from_dict raises AttributeError on every call,
    because the import at line 8 shadows the datetime module with the
    datetime class, so the User round trip never succeeds -- in
    particular not on any to_dict output.  The Wallet half of the claim
    does hold: from_dict(to_dict(w)) reproduces the wallet, with the
    float serialization of the balance modelled exactly (the modulus the
    claim allows). -/
theorem user_from_dict_raises_wallet_round_trips :
    (∀ u : User, User.from_dict u.to_dict = .error .attributeError) ∧
    (∀ w : Wallet, Wallet.from_dict w.to_dict = w) := by
  constructor
  · intro u
    rfl
  · intro w
    obtain ⟨c, b⟩ := w
    rfl

/-- C9: the claim says a non-convertible value fails with a validation
    error; on the code the conversion failure escapes as
    decimal.InvalidOperation, which is not a ValueError -- the except
    clause meant to turn it into one catches only ValueError and
    TypeError, so that re-raise is dead code.  The balance is still left
    unchanged on that failure, a negative value does fail with the
    validation error, and a non-negative numeric value is stored. -/
theorem set_balance_validates (w : Wallet) :
    w.set_balance .nonNumeric = (w, some .invalidOperation) ∧
    (∀ q : Rat, q < 0 → w.set_balance (.numeric q) = (w, some .valueError)) ∧
    (∀ q : Rat, 0 ≤ q → w.set_balance (.numeric q) = ({ w with balance := q }, none)) := by
  refine ⟨rfl, ?_, ?_⟩
  · intro q hq
    simp [Wallet.set_balance, hq]
  · intro q hq
    simp [Wallet.set_balance, not_lt.mpr hq]

/-- Witness for C9 at a concrete wallet: a negative assignment fails and
    leaves the balance at 3, a non-negative assignment stores 2. -/
theorem set_balance_validates_witness :
    Wallet.set_balance ⟨"USD", 3⟩ (.numeric (-1)) = (⟨"USD", 3⟩, some .valueError) ∧
    Wallet.set_balance ⟨"USD", 3⟩ (.numeric 2) = (⟨"USD", 2⟩, none) :=
  ⟨(set_balance_validates ⟨"USD", 3⟩).2.1 (-1) (by norm_num),
   (set_balance_validates ⟨"USD", 3⟩).2.2 2 (by norm_num)⟩

/-- C10: get_user_info exposes exactly the identifier, the username and
    the ISO-8601 registration timestamp, so two users that agree on
    those three attributes -- in particular two users differing only in
    hashed_password and salt -- produce identical results. -/
theorem get_user_info_hides_credentials (u1 u2 : User)
    (hid : u1.user_id = u2.user_id) (hname : u1.username = u2.username)
    (hdate : u1.registration_date = u2.registration_date) :
    u1.get_user_info = u2.get_user_info ∧
    u1.get_user_info = ⟨u1.user_id, u1.username, u1.registration_date.isoformat⟩ := by
  constructor
  · simp [User.get_user_info, hid, hname, hdate]
  · rfl

/-- Witness for C10: two users with the same identity data but different
    hashes and salts give equal info. -/
theorem get_user_info_hides_credentials_witness :
    User.get_user_info ⟨7, "alice", "h1", "s1", ⟨"2024-01-01T00:00:00"⟩⟩ =
      User.get_user_info ⟨7, "alice", "h2", "s2", ⟨"2024-01-01T00:00:00"⟩⟩ :=
  (get_user_info_hides_credentials
    ⟨7, "alice", "h1", "s1", ⟨"2024-01-01T00:00:00"⟩⟩
    ⟨7, "alice", "h2", "s2", ⟨"2024-01-01T00:00:00"⟩⟩ rfl rfl rfl).1

lemma runOps_nonneg : ∀ (ops : List WalletOp) (w w1 : Wallet), 0 ≤ w.balance →
    runOps w ops = some w1 → 0 ≤ w1.balance := by
  intro ops
  induction ops with
  | nil =>
    intro w w1 hw h
    simp [runOps] at h
    rw [← h]
    exact hw
  | cons op rest ih =>
    intro w w1 hw h
    rcases hop : w.apply_op op with ⟨w2, e⟩
    cases e with
    | some e1 => simp [runOps, hop] at h
    | none =>
      simp only [runOps, hop] at h
      exact ih w2 w1 (apply_op_nonneg hop) h

/-- C5 counterexample: the Wallet constructor stores the initial balance
    into the backing field with no validation, so a wallet built with a
    negative initial balance already violates the non-negativity claim
    after the empty call sequence. -/
theorem wallet_nonneg_claim_false :
    ¬ (∀ (w : Wallet) (ops : List WalletOp) (w1 : Wallet),
        runOps w ops = some w1 → 0 ≤ w1.balance) := by
  intro h
  have h1 := h ⟨"USD", -1⟩ [] ⟨"USD", -1⟩ rfl
  exact absurd h1 (by decide)

/-- C5 amended: for every wallet whose balance starts non-negative,
    every sequence of successful deposit and withdraw calls keeps the
    balance non-negative, and any withdraw of more than the balance
    fails with a validation error and returns the wallet unchanged. -/
theorem wallet_balance_nonneg (w : Wallet) (hw : 0 ≤ w.balance) :
    (∀ (ops : List WalletOp) (w1 : Wallet), runOps w ops = some w1 → 0 ≤ w1.balance) ∧
    (∀ amount : Rat, w.balance < amount → w.withdraw amount = (w, some .valueError)) := by
  refine ⟨fun ops w1 h => runOps_nonneg ops w w1 hw h, fun amount ha => ?_⟩
  by_cases h0 : amount ≤ 0
  · simp [Wallet.withdraw, h0]
  · simp [Wallet.withdraw, h0, ha]

/-- Witness for C5 amended: from balance 0, depositing 5 and then
    withdrawing 3 ends at 2, which is non-negative, and withdrawing 3
    from balance 0 fails leaving the wallet unchanged. -/
theorem wallet_balance_nonneg_witness :
    0 ≤ (Wallet.mk "USD" 2).balance ∧
    Wallet.withdraw ⟨"USD", 0⟩ 3 = (⟨"USD", 0⟩, some .valueError) :=
  ⟨(wallet_balance_nonneg ⟨"USD", 0⟩ (by decide)).1 [.dep 5, .wd 3] ⟨"USD", 2⟩
    (by simp [runOps, Wallet.apply_op, Wallet.deposit, Wallet.withdraw, Wallet.set_balance]
        norm_num),
   (wallet_balance_nonneg ⟨"USD", 0⟩ (by decide)).2 3 (by decide)⟩

/-- C7: after change_password with a password of at least 4 characters,
    verify_password accepts that password and rejects it with an extra
    character appended; the two salted preimages differ in length, so it
    suffices that the modelled digest (hashlib sha256, abstracted as
    hashFn) be collision free on them.  verify_password is a pure total
    Bool-valued function: no side effects, no failure. -/
theorem change_password_verify (hashFn : String → String)
    (hinj : Function.Injective hashFn) (u : User) (p : String)
    (hlen : 4 ≤ p.length) :
    ∃ u1, u.change_password hashFn p = .ok u1 ∧
      u1.verify_password hashFn p = true ∧
      u1.verify_password hashFn (p ++ "x") = false := by
  refine ⟨{ u with hashed_password := u.hash_password hashFn p }, ?_, ?_, ?_⟩
  · simp [User.change_password, Nat.not_lt.mpr hlen]
  · simp [User.verify_password, User.hash_password]
  · simp only [User.verify_password, User.hash_password, beq_eq_false_iff_ne, ne_eq]
    intro heq
    have hpre := hinj heq
    have hlen2 : (p ++ "x" ++ u.salt).length = (p ++ u.salt).length := by rw [hpre]
    simp [String.length_append] at hlen2
    exact absurd hlen2 (by decide)

/-- Witness for C7 with the identity digest (injective) at a concrete
    user and the password abcd. -/
theorem change_password_verify_witness :
    ∃ u1, User.change_password ⟨1, "alice", "", "s1", ⟨"2024-01-01T00:00:00"⟩⟩ id "abcd" =
        .ok u1 ∧
      u1.verify_password id "abcd" = true ∧
      u1.verify_password id ("abcd" ++ "x") = false :=
  change_password_verify id (fun _ _ h => h)
    ⟨1, "alice", "", "s1", ⟨"2024-01-01T00:00:00"⟩⟩ "abcd" (by decide)

/-- C8: add_currency fails with a validation error on a duplicate code
    and on a code missing from the rate table; on a fresh known code it
    succeeds and creates exactly one zero-balance wallet for the code,
    and a second call with the same code fails leaving that single
    wallet in place. -/
theorem add_currency_idempotent_rejecting (p : Portfolio) (c : String) :
    (p.get_wallet c ≠ none → p.add_currency c = (p, some .valueError)) ∧
    (EXCHANGE_RATES.lookup c = none → p.add_currency c = (p, some .valueError)) ∧
    (∀ r : Rat, p.get_wallet c = none → EXCHANGE_RATES.lookup c = some r →
      ∃ p1, p.add_currency c = (p1, none) ∧
        p1.get_wallet c = some ⟨c, 0⟩ ∧
        countCurrency p1 c = 1 ∧
        p1.add_currency c = (p1, some .valueError)) := by
  refine ⟨?_, ?_, ?_⟩
  · intro h
    have hs : (p.wallets.lookup c).isSome := by
      rw [Option.isSome_iff_ne_none]
      exact h
    simp [Portfolio.add_currency, hs]
  · intro h
    by_cases hw : (p.wallets.lookup c).isSome
    · simp [Portfolio.add_currency, hw]
    · simp [Portfolio.add_currency, hw, h]
  · intro r hw hr
    have hw1 : p.wallets.lookup c = none := hw
    have hget : (p.wallets ++ [(c, (⟨c, 0⟩ : Wallet))]).lookup c = some ⟨c, 0⟩ :=
      lookup_append_of_none hw1 _
    refine ⟨{ p with wallets := p.wallets ++ [(c, ⟨c, 0⟩)] }, ?_, ?_, ?_, ?_⟩
    · simp [Portfolio.add_currency, hw1, hr]
    · exact hget
    · simp only [countCurrency, List.countP_append,
        countP_eq_zero_of_lookup_none hw1]
      simp [List.countP_cons]
    · have hs : ((p.wallets ++ [(c, (⟨c, 0⟩ : Wallet))]).lookup c).isSome := by
        rw [hget]; rfl
      simp [Portfolio.add_currency, hs]

/-- Witness for C8: adding USD to an empty portfolio creates the single
    zero-balance USD wallet and the second add fails. -/
theorem add_currency_idempotent_rejecting_witness :
    ∃ p1, (Portfolio.mk 1 []).add_currency "USD" = (p1, none) ∧
      p1.get_wallet "USD" = some ⟨"USD", 0⟩ ∧
      countCurrency p1 "USD" = 1 ∧
      p1.add_currency "USD" = (p1, some .valueError) :=
  (add_currency_idempotent_rejecting ⟨1, []⟩ "USD").2.2 1 rfl rfl

/-- C3: a successful sell_currency call debits the source wallet by the
    amount and leaves the destination wallet untouched: the truncated
    source function never deposits a converted amount anywhere. -/
theorem sell_currency_no_deposit (p : Portfolio) (amount : Rat)
    (from_currency to_currency : String) (fw tw : Wallet) (r : Rat)
    (hf : p.get_wallet from_currency = some fw)
    (ht : p.get_wallet to_currency = some tw)
    (hne : to_currency ≠ from_currency)
    (hpos : 0 < amount) (hbal : amount ≤ fw.balance)
    (hr : EXCHANGE_RATES.lookup from_currency = some r) :
    ∃ p1, p.sell_currency amount from_currency to_currency = (p1, none) ∧
      p1.get_wallet from_currency = some { fw with balance := fw.balance - amount } ∧
      p1.get_wallet to_currency = some tw := by
  have h0 : ¬ amount ≤ 0 := not_le.mpr hpos
  have hnl : ¬ fw.balance < amount := not_lt.mpr hbal
  have hwd : fw.withdraw amount = ({ fw with balance := fw.balance - amount }, none) := by
    have hnn : ¬ fw.balance - amount < 0 := by
      rw [not_lt]
      linarith
    simp [Wallet.withdraw, Wallet.set_balance, h0, hnl, hnn]
  refine ⟨p.set_wallet from_currency { fw with balance := fw.balance - amount }, ?_, ?_, ?_⟩
  · simp [Portfolio.sell_currency, h0, hf, ht, hnl, hwd, dict_item, hr]
  · rw [get_wallet_set_self, hf]
    rfl
  · rw [get_wallet_set_ne p hne]
    exact ht

/-- Witness for C3: selling 40 USD towards EUR from balances
    USD 100, EUR 0 succeeds, leaves USD at 60 and EUR exactly as it
    was. -/
theorem sell_currency_no_deposit_witness :
    ∃ p1, (Portfolio.mk 1 [("USD", ⟨"USD", 100⟩), ("EUR", ⟨"EUR", 0⟩)]).sell_currency 40
        "USD" "EUR" = (p1, none) ∧
      p1.get_wallet "USD" = some ⟨"USD", (100 : Rat) - 40⟩ ∧
      p1.get_wallet "EUR" = some ⟨"EUR", 0⟩ :=
  sell_currency_no_deposit _ 40 "USD" "EUR" ⟨"USD", 100⟩ ⟨"EUR", 0⟩ 1 rfl rfl (by decide)
    (by norm_num) (by norm_num : (40 : Rat) ≤ 100) rfl

/-- C2: with distinct source and destination wallets present, a positive
    amount within the source balance, both rates in the table and a
    non-negative destination balance (the documented Wallet invariant),
    buy_currency succeeds, debits the source wallet by the amount and
    credits the destination wallet with amount * from_rate / to_rate. -/
theorem buy_currency_transfers (p : Portfolio) (amount : Rat)
    (from_currency to_currency : String) (fw tw : Wallet) (from_rate to_rate : Rat)
    (hf : p.get_wallet from_currency = some fw)
    (ht : p.get_wallet to_currency = some tw)
    (hne : to_currency ≠ from_currency)
    (hpos : 0 < amount) (hbal : amount ≤ fw.balance) (htw : 0 ≤ tw.balance)
    (hfr : EXCHANGE_RATES.lookup from_currency = some from_rate)
    (htr : EXCHANGE_RATES.lookup to_currency = some to_rate) :
    ∃ p1, p.buy_currency amount from_currency to_currency = (p1, none) ∧
      p1.get_wallet from_currency = some { fw with balance := fw.balance - amount } ∧
      p1.get_wallet to_currency =
        some { tw with balance := tw.balance + amount * from_rate / to_rate } := by
  have h0 : ¬ amount ≤ 0 := not_le.mpr hpos
  have hfrpos := rates_pos hfr
  have htrpos := rates_pos htr
  have hconv : 0 < amount * from_rate / to_rate := by positivity
  have hnl : ¬ fw.balance < amount := not_lt.mpr hbal
  have hwd : fw.withdraw amount = ({ fw with balance := fw.balance - amount }, none) := by
    have hnn : ¬ fw.balance - amount < 0 := by
      rw [not_lt]
      linarith
    simp [Wallet.withdraw, Wallet.set_balance, h0, hnl, hnn]
  have hdep : tw.deposit (amount * from_rate / to_rate) =
      ({ tw with balance := tw.balance + amount * from_rate / to_rate }, none) := by
    have h1 : ¬ amount * from_rate / to_rate ≤ 0 := not_le.mpr hconv
    have h2 : ¬ tw.balance + amount * from_rate / to_rate < 0 := by
      rw [not_lt]
      linarith
    simp [Wallet.deposit, Wallet.set_balance, h1, h2]
  refine ⟨(p.set_wallet from_currency { fw with balance := fw.balance - amount }).set_wallet
      to_currency { tw with balance := tw.balance + amount * from_rate / to_rate },
    ?_, ?_, ?_⟩
  · simp [Portfolio.buy_currency, h0, hf, ht, hwd, dict_item, hfr, htr, hne, hdep]
  · rw [get_wallet_set_ne _ (Ne.symm hne), get_wallet_set_self, hf]
    rfl
  · rw [get_wallet_set_self, get_wallet_set_ne p hne, ht]
    rfl

/-- Witness for C2, the scenario from the claim: buying 50 from
    USD 100 into EUR 0 leaves USD at 50 and deposits 50 * 1.0 / 1.1
    into the EUR wallet. -/
theorem buy_currency_transfers_witness :
    ∃ p1, (Portfolio.mk 1 [("USD", ⟨"USD", 100⟩), ("EUR", ⟨"EUR", 0⟩)]).buy_currency 50
        "USD" "EUR" = (p1, none) ∧
      p1.get_wallet "USD" = some ⟨"USD", (100 : Rat) - 50⟩ ∧
      p1.get_wallet "EUR" = some ⟨"EUR", (0 : Rat) + 50 * 1 / (11 / 10)⟩ :=
  buy_currency_transfers _ 50 "USD" "EUR" ⟨"USD", 100⟩ ⟨"EUR", 0⟩ 1 (11 / 10) rfl rfl
    (by decide) (by norm_num) (by norm_num : (50 : Rat) ≤ 100)
    (by norm_num : (0 : Rat) ≤ 0) rfl rfl

/-- C4: each enumerated failing call -- buy_currency or sell_currency
    with a non-positive amount, with a missing wallet, or with
    insufficient source funds, and any failing add_currency -- raises a
    validation error and returns the portfolio exactly as it was. -/
theorem failed_ops_leave_state (p : Portfolio) (amount : Rat)
    (from_currency to_currency currency_code : String) :
    ((amount ≤ 0 ∨ p.get_wallet from_currency = none ∨ p.get_wallet to_currency = none ∨
        (∃ fw, p.get_wallet from_currency = some fw ∧ fw.balance < amount)) →
      p.buy_currency amount from_currency to_currency = (p, some .valueError) ∧
      p.sell_currency amount from_currency to_currency = (p, some .valueError)) ∧
    ((p.add_currency currency_code).2.isSome →
      p.add_currency currency_code = (p, some .valueError)) := by
  constructor
  · intro h
    by_cases h0 : amount ≤ 0
    · constructor <;> simp [Portfolio.buy_currency, Portfolio.sell_currency, h0]
    · rcases h with h | hf | ht | ⟨fw, hf, hlt⟩
      · exact absurd h h0
      · rcases ht2 : p.get_wallet to_currency with _ | tw <;>
          constructor <;>
            simp [Portfolio.buy_currency, Portfolio.sell_currency, h0, hf, ht2]
      · rcases hf2 : p.get_wallet from_currency with _ | fw <;>
          constructor <;>
            simp [Portfolio.buy_currency, Portfolio.sell_currency, h0, hf2, ht]
      · rcases ht2 : p.get_wallet to_currency with _ | tw
        · constructor <;>
            simp [Portfolio.buy_currency, Portfolio.sell_currency, h0, hf, ht2]
        · have hwd : fw.withdraw amount = (fw, some .valueError) := by
            simp [Wallet.withdraw, h0, hlt]
          constructor <;>
            simp [Portfolio.buy_currency, Portfolio.sell_currency, h0, hf, ht2, hwd, hlt]
  · intro h
    unfold Portfolio.add_currency at h ⊢
    split_ifs at h ⊢ with h1 h2
    · rfl
    · rfl
    · exact absurd h (by simp)

/-- Witness for C4: a buy and a sell with amount -1 both fail and leave
    the portfolio unchanged, and adding an already-present currency
    fails and leaves the portfolio unchanged. -/
theorem failed_ops_leave_state_witness :
    (Portfolio.mk 1 [("USD", ⟨"USD", 10⟩)]).buy_currency (-1) "USD" "EUR" =
      (⟨1, [("USD", ⟨"USD", 10⟩)]⟩, some .valueError) ∧
    (Portfolio.mk 1 [("USD", ⟨"USD", 10⟩)]).sell_currency (-1) "USD" "EUR" =
      (⟨1, [("USD", ⟨"USD", 10⟩)]⟩, some .valueError) ∧
    (Portfolio.mk 1 [("USD", ⟨"USD", 10⟩)]).add_currency "USD" =
      (⟨1, [("USD", ⟨"USD", 10⟩)]⟩, some .valueError) := by
  have h := failed_ops_leave_state ⟨1, [("USD", ⟨"USD", 10⟩)]⟩ (-1) "USD" "EUR" "USD"
  exact ⟨(h.1 (Or.inl (by norm_num))).1, (h.1 (Or.inl (by norm_num))).2, h.2 (by rfl)⟩

end ValutatradeHub
